import Mathlib

/-!
Shallow embedding of the clip2board tool (src/index.js): clipboard
normalization, filename generation via a local service, the OAuth
authorization flow with token persistence, and the Drive upload pipeline.
External effects (file system, HTTP, clipboard, Drive API) are modelled by
explicit environment records describing the behaviour of the outside world
during one run; each function returns an outcome record listing the
observable actions the source code performs.
-/

namespace Clip2Board

/-! ## Clipboard normalization (src/index.js lines 141-145)

`modifyClipboardContent` performs `content.replace(/\t/g, '  ')` followed by
`.replace(/•/g, '-')`: first every tab becomes two spaces, then every bullet
becomes a hyphen-minus. Each global regex replace is embedded as a structural
recursion over the character list. -/

def replaceTabs : List Char → List Char
  | [] => []
  | c :: cs => (if c = '\t' then [' ', ' '] else [c]) ++ replaceTabs cs

def replaceBullets : List Char → List Char
  | [] => []
  | c :: cs => (if c = '•' then ['-'] else [c]) ++ replaceBullets cs

def modifyClipboardContent (s : String) : String :=
  String.mk (replaceBullets (replaceTabs s.data))

/-- Modelled from the spec: per-character normalization as the spec words it
("replace horizontal tab characters with two spaces; replace bullet
characters (•) with hyphen-minus", all other characters unchanged). Used as
the refinement target for the source's two sequential regex replaces. -/
def normCharSpec (c : Char) : List Char :=
  if c = '\t' then [' ', ' ']
  else if c = '•' then ['-']
  else [c]

/-- Modelled from the spec: applies `normCharSpec` to every character. -/
def normalizeSpecList : List Char → List Char
  | [] => []
  | c :: cs => normCharSpec c ++ normalizeSpecList cs

/-- Modelled from the spec: the spec-level normalization on strings. -/
def normalizeSpec (s : String) : String :=
  String.mk (normalizeSpecList s.data)

/-! ## Filename generation (src/index.js lines 147-174)

`generateFileName` shells out to a local generation service via
`execSync(curl ...)`, parses the stdout as JSON and, when the parsed object
has a truthy `response` field, returns
`response.trim().replace(/\s+/g, '-').replace(/"/g, '')`; every other path
(exec throws, parse throws, field absent or falsy) is caught and yields the
constant `"Note"`. The external call's observable behaviour is a
`ServiceResult`; JavaScript string truthiness is `truthyOpt`. -/

/-- Whitespace class used by the JavaScript regex `\s` and by
`String.prototype.trim` (ASCII portion; the source content never hinges on
the exotic Unicode space characters). -/
def isJsSpace (c : Char) : Bool :=
  c = ' ' || c = '\t' || c = '\n' || c = '\r' || c = '\x0b' || c = '\x0c'

/-- JavaScript truthiness of a possibly-absent string value:
`undefined`/`null` and the empty string are falsy. -/
def truthyOpt : Option String → Bool
  | none => false
  | some s => s ≠ ""

/-- `trim()`: drop the whitespace from both ends. -/
def jsTrim (l : List Char) : List Char :=
  ((l.dropWhile isJsSpace).reverse.dropWhile isJsSpace).reverse

/-- `.replace(/\s+/g, '-')`: each maximal run of whitespace becomes one
hyphen. The boolean argument records whether the previous character was part
of a whitespace run already replaced. -/
def collapseWsAux : Bool → List Char → List Char
  | _, [] => []
  | inRun, c :: cs =>
    if isJsSpace c then
      (if inRun then [] else ['-']) ++ collapseWsAux true cs
    else
      c :: collapseWsAux false cs

/-- The success-path sanitization of the service's `response` field:
`response.trim().replace(/\s+/g, '-').replace(/"/g, '')`. -/
def sanitizeName (resp : String) : String :=
  String.mk ((collapseWsAux false (jsTrim resp.data)).filter (fun c => c ≠ '"'))

/-- Observable behaviour of the `execSync(curl ...)` + `JSON.parse` pair:
either some step threw (non-zero exit, service unreachable, malformed JSON),
or parsing succeeded and the `response` field had the given value
(`none` = field absent). -/
inductive ServiceResult where
  | failure (msg : String)
  | parsed (response : Option String)
  deriving DecidableEq, Repr

def generateFileName (r : ServiceResult) : String :=
  match r with
  | .failure _ => "Note"
  | .parsed resp =>
    if truthyOpt resp then sanitizeName (resp.getD "") else "Note"

/-! ## Authorization (src/index.js lines 95-139)

`authenticate` first tries `fs.readFileSync(TOKEN_PATH)` + `JSON.parse` +
`oauth2Client.setCredentials` inside one `try`; any throw there (missing
file or unparsable contents) falls into the `catch`, which runs the fresh
authorization: open the browser, run a single-request HTTP listener on port
3000, exchange the callback code for tokens, install and persist them.
After the `try`/`catch`, `--auth-only` causes `process.exit(0)`. -/

/-- The parsed token record. The source never inspects its fields (it is
passed whole between `JSON.parse`, `setCredentials` and `JSON.stringify`),
so it is modelled as an opaque payload carrying its serialized form. -/
structure TokenRecord where
  raw : String
  deriving DecidableEq, Repr

/-- State of the token file at `TOKEN_PATH` when `authenticate` reads it:
absent (`readFileSync` throws), present but unparsable (`JSON.parse`
throws), or a valid record. -/
inductive TokenFileState where
  | missing
  | unparsable (raw : String)
  | valid (tok : TokenRecord)
  deriving DecidableEq, Repr

/-- Behaviour of the external world during one `authenticate` run. -/
structure AuthEnv where
  /-- token file state at `TOKEN_PATH` -/
  tokenFile : TokenFileState
  /-- result of `await open(authUrl)` -/
  openRes : Except String Unit
  /-- query parameters of the single HTTP request the listener receives -/
  callbackParams : List (String × String)
  /-- result of `oauth2Client.getToken(code)` -/
  exchangeRes : Except String TokenRecord
  /-- result of `fs.writeFileSync(TOKEN_PATH, ...)` -/
  saveRes : Except String Unit

/-- What the single-request callback handler does (src/index.js lines
112-125): it reads the `code` query parameter, asserts it truthy, answers
with a page, closes the listener and settles the pending promise. -/
structure CallbackOutcome where
  responseBody : String
  serverClosed : Bool
  result : Except String String

/-- The HTTP request handler passed to `http.createServer`. `params` models
`new URL(req.url, 'http://localhost:3000').searchParams`; `List.lookup`
models `searchParams.get('code')` (`none` = parameter absent). -/
def handleAuthCallback (params : List (String × String)) : CallbackOutcome :=
  let code := List.lookup "code" params
  if truthyOpt code then
    { responseBody := "Authentication successful! You can close this window.",
      serverClosed := true,
      result := .ok (code.getD "") }
  else
    { responseBody := "Authentication failed.",
      serverClosed := true,
      result := .error "Authentication code not found in the callback URL." }

/-- Observable actions of one `authenticate` run. `credentials` is the last
argument passed to `oauth2Client.setCredentials`; `browserOpened` means
`open(authUrl)` was invoked; `exited` is the argument of a `process.exit`
call; `thrown` is an exception escaping `authenticate`. -/
structure AuthOutcome where
  credentials : Option TokenRecord
  browserOpened : Bool
  listenerStarted : Bool
  listenerClosed : Bool
  tokenSaved : Option TokenRecord
  exited : Option Nat
  thrown : Option String
  deriving DecidableEq, Repr

/-- The fresh-authorization path (the body of the `catch` block, lines
102-132), reached when loading the stored token fails for any reason. -/
def freshAuth (onlyAuth : Bool) (openRes : Except String Unit)
    (callbackParams : List (String × String))
    (exchangeRes : Except String TokenRecord)
    (saveRes : Except String Unit) : AuthOutcome :=
  match openRes with
  | .error e =>
    { credentials := none, browserOpened := true, listenerStarted := false,
      listenerClosed := false, tokenSaved := none, exited := none,
      thrown := some e }
  | .ok _ =>
    let cb := handleAuthCallback callbackParams
    match cb.result with
    | .error e =>
      { credentials := none, browserOpened := true, listenerStarted := true,
        listenerClosed := cb.serverClosed, tokenSaved := none, exited := none,
        thrown := some e }
    | .ok _code =>
      match exchangeRes with
      | .error e =>
        { credentials := none, browserOpened := true, listenerStarted := true,
          listenerClosed := cb.serverClosed, tokenSaved := none,
          exited := none, thrown := some e }
      | .ok tokens =>
        match saveRes with
        | .error e =>
          -- setCredentials(tokens) runs before writeFileSync, so the
          -- credentials are installed even when persisting them throws
          { credentials := some tokens, browserOpened := true,
            listenerStarted := true, listenerClosed := cb.serverClosed,
            tokenSaved := none, exited := none, thrown := some e }
        | .ok _ =>
          { credentials := some tokens, browserOpened := true,
            listenerStarted := true, listenerClosed := cb.serverClosed,
            tokenSaved := some tokens,
            exited := if onlyAuth then some 0 else none, thrown := none }

def authenticate (env : AuthEnv) (onlyAuth : Bool) : AuthOutcome :=
  match env.tokenFile with
  | .valid tok =>
    { credentials := some tok, browserOpened := false,
      listenerStarted := false, listenerClosed := false, tokenSaved := none,
      exited := if onlyAuth then some 0 else none, thrown := none }
  | .missing =>
    freshAuth onlyAuth env.openRes env.callbackParams env.exchangeRes
      env.saveRes
  | .unparsable _ =>
    freshAuth onlyAuth env.openRes env.callbackParams env.exchangeRes
      env.saveRes

/-! ## Upload pipeline (src/index.js lines 176-242)

`uploadFile` reads the clipboard (outside any `try`, so a throwing read
escapes the function), asserts the content truthy (caught: log +
`process.exit(1)`), normalizes it, asserts the normalized content truthy
(caught: log + `process.exit(1)`), generates the filename, then inside one
`try` performs `drive.files.create`, asserts `data.id`, performs
`drive.permissions.create`, asserts `data.webViewLink` and writes the link
to the clipboard; every throw inside that `try` is caught and logged with
the `Error during file upload:` message. -/

/-- Fields requested from `drive.files.create` (`fields: 'id, webViewLink'`);
`none` models an absent field, and JavaScript's falsiness of the empty
string is applied via `truthyOpt` at each `assert`. -/
structure CreateData where
  id : Option String
  webViewLink : Option String
  deriving DecidableEq, Repr

/-- Behaviour of the external world during one `uploadFile` run. -/
structure UploadEnv where
  /-- result of `clipboardy.readSync()` (`error` = the read throws) -/
  clipRead : Except String String
  /-- behaviour of the generation-service call inside `generateFileName` -/
  ollama : ServiceResult
  /-- result of `drive.files.create` -/
  createRes : Except String CreateData
  /-- result of `drive.permissions.create` -/
  permRes : Except String Unit

/-- The network/service calls `uploadFile` can issue, in program order. -/
inductive NetCall where
  | ollamaGenerate
  | driveCreate
  | permissionsCreate
  deriving DecidableEq, Repr

/-- The `errorLog` call sites of `uploadFile`, one constructor per source
message: `Clipboard is empty. Please copy some text to upload.`,
`Failed to modify clipboard content.`, and
`Error during file upload: ${error.message}` (whose payload is the message
of the assert or API error caught by the big `try`). -/
inductive UploadLog where
  | clipboardEmpty
  | modifyFailed
  | uploadError (msg : String)
  deriving DecidableEq, Repr

/-- Observable actions of one `uploadFile` run: `exited` is the argument of
a `process.exit` call, `calls` the external calls issued in order,
`clipWrite` the argument of `clipboardy.writeSync` when it runs, `thrown` an
exception escaping `uploadFile`, `errLogs` the `errorLog` calls. -/
structure UploadOutcome where
  exited : Option Nat
  calls : List NetCall
  clipWrite : Option String
  thrown : Option String
  errLogs : List UploadLog
  deriving DecidableEq, Repr

def uploadFile (env : UploadEnv) : UploadOutcome :=
  match env.clipRead with
  | .error e =>
    -- `clipboardy.readSync()` throws outside every try/catch of
    -- `uploadFile`: the exception propagates to the caller
    { exited := none, calls := [], clipWrite := none, thrown := some e,
      errLogs := [] }
  | .ok content =>
    if content = "" then
      { exited := some 1, calls := [], clipWrite := none, thrown := none,
        errLogs := [.clipboardEmpty] }
    else
      let modifiedContent := modifyClipboardContent content
      if modifiedContent = "" then
        { exited := some 1, calls := [], clipWrite := none, thrown := none,
          errLogs := [.modifyFailed] }
      else
        -- generateFileName always performs its service call; the resulting
        -- name only feeds the Drive file metadata
        let _generatedName := generateFileName env.ollama
        match env.createRes with
        | .error e =>
          { exited := none, calls := [.ollamaGenerate, .driveCreate],
            clipWrite := none, thrown := none, errLogs := [.uploadError e] }
        | .ok data =>
          if truthyOpt data.id then
            match env.permRes with
            | .error e =>
              { exited := none,
                calls := [.ollamaGenerate, .driveCreate, .permissionsCreate],
                clipWrite := none, thrown := none,
                errLogs := [.uploadError e] }
            | .ok _ =>
              if truthyOpt data.webViewLink then
                { exited := none,
                  calls := [.ollamaGenerate, .driveCreate,
                    .permissionsCreate],
                  clipWrite := some (data.webViewLink.getD ""),
                  thrown := none, errLogs := [] }
              else
                { exited := none,
                  calls := [.ollamaGenerate, .driveCreate,
                    .permissionsCreate],
                  clipWrite := none, thrown := none,
                  errLogs := [.uploadError
                    "Failed to retrieve webViewLink for the uploaded file."] }
          else
            { exited := none, calls := [.ollamaGenerate, .driveCreate],
              clipWrite := none, thrown := none,
              errLogs := [.uploadError
                "Failed to upload file to Google Drive."] }

/-! ## Main (src/index.js lines 244-251)

The top-level IIFE awaits `authenticate()` then `uploadFile()`; any
exception reaching it is logged and swallowed, after which the process ends
normally with exit code 0. A `process.exit(n)` inside either function
terminates the process with code `n` immediately. -/

structure ProcessEnv where
  auth : AuthEnv
  onlyAuth : Bool
  upload : UploadEnv

structure ProcessOutcome where
  exitCode : Nat
  uploadRan : Bool
  authOutcome : AuthOutcome
  uploadOutcome : Option UploadOutcome
  deriving DecidableEq, Repr

def runMain (env : ProcessEnv) : ProcessOutcome :=
  let a := authenticate env.auth env.onlyAuth
  match a.exited with
  | some n => { exitCode := n, uploadRan := false, authOutcome := a,
                uploadOutcome := none }
  | none =>
    match a.thrown with
    | some _ =>
      -- caught by the IIFE's catch: logged, process ends with code 0
      { exitCode := 0, uploadRan := false, authOutcome := a,
        uploadOutcome := none }
    | none =>
      let u := uploadFile env.upload
      match u.exited with
      | some n => { exitCode := n, uploadRan := true, authOutcome := a,
                    uploadOutcome := some u }
      | none =>
        -- a throw from uploadFile is caught and logged by the IIFE;
        -- either way the process then ends with code 0
        { exitCode := 0, uploadRan := true, authOutcome := a,
          uploadOutcome := some u }

/-! ## Sample environments used by concrete evaluations -/

/-- An authorization environment whose token file holds a valid record. -/
def cachedTokenAuthEnv : AuthEnv :=
  { tokenFile := .valid ⟨"tok"⟩, openRes := .ok (), callbackParams := [],
    exchangeRes := .error "unused", saveRes := .ok () }

/-- Upload environment: readable clipboard, generation service down, Drive
create succeeds, permission grant fails. -/
def permFailUploadEnv : UploadEnv :=
  { clipRead := .ok "hello", ollama := .failure "down",
    createRes := .ok { id := some "f1", webViewLink := some "L" },
    permRes := .error "perm denied" }

/-- Upload environment whose clipboard read throws. -/
def unreadableClipUploadEnv : UploadEnv :=
  { clipRead := .error "clipboard unreadable", ollama := .failure "down",
    createRes := .ok { id := some "f", webViewLink := some "L" },
    permRes := .ok () }

/-- Upload environment whose clipboard is empty. -/
def emptyClipUploadEnv : UploadEnv :=
  { clipRead := .ok "", ollama := .failure "down",
    createRes := .error "unused", permRes := .ok () }

/-- Process environment: cached token, unreadable clipboard. -/
def unreadableClipProcessEnv : ProcessEnv :=
  { auth := cachedTokenAuthEnv, onlyAuth := false,
    upload := unreadableClipUploadEnv }

/-- Process environment: cached token, empty clipboard. -/
def emptyClipProcessEnv : ProcessEnv :=
  { auth := cachedTokenAuthEnv, onlyAuth := false,
    upload := emptyClipUploadEnv }

/-- Process environment: cached token, authorization-only flag set. -/
def authOnlyProcessEnv : ProcessEnv :=
  { auth := cachedTokenAuthEnv, onlyAuth := true,
    upload := emptyClipUploadEnv }

/-! ## Normalization lemmas -/

lemma replaceBullets_append (a b : List Char) :
    replaceBullets (a ++ b) = replaceBullets a ++ replaceBullets b := by
  induction a with
  | nil => rfl
  | cons c cs ih => simp [replaceBullets, ih]

lemma modify_list_eq_spec (l : List Char) :
    replaceBullets (replaceTabs l) = normalizeSpecList l := by
  induction l with
  | nil => rfl
  | cons c cs ih =>
    simp only [replaceTabs, normalizeSpecList, replaceBullets_append, ih]
    congr 1
    by_cases ht : c = '\t'
    · subst ht; simp [replaceBullets, normCharSpec]
    · by_cases hb : c = '•'
      · subst hb; simp [replaceBullets, normCharSpec]
      · simp [replaceBullets, normCharSpec, ht, hb]

lemma modifyClipboardContent_eq_specList (s : String) :
    modifyClipboardContent s = String.mk (normalizeSpecList s.data) := by
  simp [modifyClipboardContent, modify_list_eq_spec]

lemma normalizeSpecList_append (a b : List Char) :
    normalizeSpecList (a ++ b) = normalizeSpecList a ++ normalizeSpecList b := by
  induction a with
  | nil => rfl
  | cons c cs ih => simp [normalizeSpecList, ih]

lemma normCharSpec_ne_nil (c : Char) : normCharSpec c ≠ [] := by
  unfold normCharSpec
  by_cases ht : c = '\t' <;> by_cases hb : c = '•' <;> simp [ht, hb]

lemma normalizeSpecList_normChar (c : Char) :
    normalizeSpecList (normCharSpec c) = normCharSpec c := by
  unfold normCharSpec
  by_cases ht : c = '\t'
  · subst ht; simp [normalizeSpecList, normCharSpec]
  · by_cases hb : c = '•'
    · subst hb; simp [normalizeSpecList, normCharSpec]
    · simp [ht, hb, normalizeSpecList, normCharSpec]

lemma normalizeSpecList_idem (l : List Char) :
    normalizeSpecList (normalizeSpecList l) = normalizeSpecList l := by
  induction l with
  | nil => rfl
  | cons c cs ih =>
    simp [normalizeSpecList, normalizeSpecList_append, ih,
      normalizeSpecList_normChar]

lemma string_ne_empty_iff (s : String) : s ≠ "" ↔ s.data ≠ [] := by
  constructor
  · intro h hd
    exact h (String.ext hd)
  · intro h hd
    exact h (by rw [hd])

lemma modifyClipboardContent_ne_empty (s : String) (h : s ≠ "") :
    modifyClipboardContent s ≠ "" := by
  rw [modifyClipboardContent_eq_specList, string_ne_empty_iff] at *
  cases hl : s.data with
  | nil => exact absurd hl h
  | cons c cs =>
    simp only [hl, normalizeSpecList]
    intro hcontr
    exact normCharSpec_ne_nil c (List.append_eq_nil.mp hcontr).1

/-! ## Claim theorems -/

/-- Claim C2: for every clipboard input string, normalization replaces every
horizontal tab with exactly two spaces and every bullet `•` with a
hyphen-minus, leaving all other characters unchanged — the source's two
sequential global replaces coincide with the per-character spec
normalization. -/
theorem modifyClipboardContent_matches_spec (s : String) :
    modifyClipboardContent s = normalizeSpec s := by
  rw [modifyClipboardContent_eq_specList, normalizeSpec]

/-- Claim C8: normalization is idempotent — normalizing an already-normalized
string leaves it unchanged. -/
theorem modifyClipboardContent_idempotent (s : String) :
    modifyClipboardContent (modifyClipboardContent s) =
      modifyClipboardContent s := by
  have h1 : (modifyClipboardContent s).data = normalizeSpecList s.data :=
    modify_list_eq_spec s.data
  rw [modifyClipboardContent_eq_specList (modifyClipboardContent s), h1,
    normalizeSpecList_idem, ← modifyClipboardContent_eq_specList]

/-- Claim C1 counterexample: a successfully parsed service response whose
`response` field is a single double-quote character is truthy, so the
success path runs, and sanitization strips the quote, returning the empty
string — `generate` does not always return a non-empty string. -/
theorem generateFileName_empty_on_quote_response :
    generateFileName (ServiceResult.parsed (some "\"")) = "" := by decide

/-- Claim C1 (amended): `generate` never throws; on any failure of the
generation service (exec failure, malformed JSON, missing or falsy
`response` field) it returns the fixed non-empty fallback `"Note"`, and on a
truthy `response` field it returns the sanitized response, which can be
empty when the response consists only of whitespace and double-quote
characters. -/
theorem generateFileName_fallback :
    (∀ e, generateFileName (ServiceResult.failure e) = "Note") ∧
    generateFileName (ServiceResult.parsed none) = "Note" ∧
    generateFileName (ServiceResult.parsed (some "")) = "Note" ∧
    (∀ s : String, s ≠ "" →
      generateFileName (ServiceResult.parsed (some s)) = sanitizeName s) := by
  refine ⟨fun e => rfl, rfl, by decide, fun s hs => ?_⟩
  simp [generateFileName, truthyOpt, hs]

/-- Witness for the amended C1 theorem at a concrete response. -/
theorem generateFileName_fallback_witness :
    ("abc" : String) ≠ "" ∧
    generateFileName (ServiceResult.parsed (some "abc")) = sanitizeName "abc" :=
  ⟨by decide, generateFileName_fallback.2.2.2 "abc" (by decide)⟩

/-- Claim C9: on a well-formed service response with a non-empty `response`
field, `generate` returns exactly that field trimmed, with whitespace runs
collapsed to single hyphens and double-quote characters stripped; no length
cap is enforced — a 36-character response yields a name longer than 30
characters. -/
theorem generateFileName_success_no_truncation :
    (∀ r : String, r ≠ "" →
      generateFileName (ServiceResult.parsed (some r)) = sanitizeName r) ∧
    (∃ r : String, 30 < r.length ∧
      30 < (generateFileName (ServiceResult.parsed (some r))).length) := by
  constructor
  · intro r hr
    simp [generateFileName, truthyOpt, hr]
  · exact ⟨"abcdefghijklmnopqrstuvwxyzabcdefghij", by decide, by decide⟩

/-- Witness for the C9 theorem at a concrete response. -/
theorem generateFileName_success_witness :
    ("hi there" : String) ≠ "" ∧
    generateFileName (ServiceResult.parsed (some "hi there")) =
      sanitizeName "hi there" :=
  ⟨by decide, generateFileName_success_no_truncation.1 "hi there" (by decide)⟩

/-- Claim C10: for every non-empty clipboard content, normalization yields a
non-empty string, so the upload pipeline's fatal check for empty normalized
content is an unreachable branch: its error log never occurs. -/
theorem modify_empty_branch_unreachable (s : String) (env : UploadEnv)
    (hs : s ≠ "") :
    modifyClipboardContent s ≠ "" ∧
    (env.clipRead = .ok s →
      UploadLog.modifyFailed ∉ (uploadFile env).errLogs) := by
  refine ⟨modifyClipboardContent_ne_empty s hs, ?_⟩
  intro hclip
  simp only [uploadFile, hclip]
  rw [if_neg hs, if_neg (modifyClipboardContent_ne_empty s hs)]
  cases hc : env.createRes with
  | error e => simp
  | ok data =>
    cases hid : truthyOpt data.id with
    | false => simp [hid]
    | true =>
      cases hp : env.permRes with
      | error e => simp [hid]
      | ok u =>
        cases hw : truthyOpt data.webViewLink with
        | false => simp [hid, hw]
        | true => simp [hid, hw]

/-- Witness for the C10 theorem at a concrete content and environment. -/
theorem modify_empty_branch_unreachable_witness :
    ("a" : String) ≠ "" ∧
    (modifyClipboardContent "a" ≠ "" ∧
      (permFailUploadEnv.clipRead = .ok "a" →
        UploadLog.modifyFailed ∉ (uploadFile permFailUploadEnv).errLogs)) :=
  ⟨by decide, modify_empty_branch_unreachable "a" permFailUploadEnv (by decide)⟩

/-- Claim C5: a valid token file makes `authenticate` install the stored
record and complete without opening a browser or starting a listener; a
missing token file and an unparsable one produce identical behaviour (both
fall into the fresh-authorization path). -/
theorem authenticate_cached_token :
    (∀ (env : AuthEnv) (b : Bool) (tok : TokenRecord),
      env.tokenFile = .valid tok →
      (authenticate env b).credentials = some tok ∧
      (authenticate env b).browserOpened = false ∧
      (authenticate env b).listenerStarted = false ∧
      (authenticate env b).thrown = none) ∧
    (∀ (env : AuthEnv) (b : Bool) (raw : String),
      authenticate { env with tokenFile := .missing } b =
        authenticate { env with tokenFile := .unparsable raw } b) := by
  constructor
  · intro env b tok h
    simp [authenticate, h]
  · intro env b raw
    rfl

/-- Witness for the C5 theorem at a concrete environment. -/
theorem authenticate_cached_token_witness :
    cachedTokenAuthEnv.tokenFile = TokenFileState.valid ⟨"tok"⟩ ∧
    ((authenticate cachedTokenAuthEnv false).credentials = some ⟨"tok"⟩ ∧
      (authenticate cachedTokenAuthEnv false).browserOpened = false ∧
      (authenticate cachedTokenAuthEnv false).listenerStarted = false ∧
      (authenticate cachedTokenAuthEnv false).thrown = none) :=
  ⟨rfl, authenticate_cached_token.1 cachedTokenAuthEnv false ⟨"tok"⟩ rfl⟩

/-- Claim C6 counterexample: a request whose URL carries the `code` query
parameter with an empty value does contain the parameter, yet the handler
answers with the failure page and rejects instead of resolving — JavaScript
falsiness of the empty string sends it down the failure branch. -/
theorem handleAuthCallback_empty_code_fails :
    List.lookup "code" [("code", "")] = some "" ∧
    (handleAuthCallback [("code", "")]).responseBody ≠
      "Authentication successful! You can close this window." ∧
    (handleAuthCallback [("code", "")]).responseBody =
      "Authentication failed." ∧
    (handleAuthCallback [("code", "")]).result =
      Except.error "Authentication code not found in the callback URL." :=
  ⟨rfl, by decide, rfl, rfl⟩

/-- Claim C6 (amended): the single-request callback handler closes the
listener in every case; when the `code` parameter is present with a
non-empty value it answers the success page and resolves with that code;
when the parameter is absent or its value is empty (falsy) it answers the
failure page and rejects. -/
theorem handleAuthCallback_single_request (params : List (String × String)) :
    (handleAuthCallback params).serverClosed = true ∧
    (∀ c, List.lookup "code" params = some c → c ≠ "" →
      (handleAuthCallback params).responseBody =
        "Authentication successful! You can close this window." ∧
      (handleAuthCallback params).result = Except.ok c) ∧
    ((List.lookup "code" params = none ∨
        List.lookup "code" params = some "") →
      (handleAuthCallback params).responseBody = "Authentication failed." ∧
      (handleAuthCallback params).result =
        Except.error "Authentication code not found in the callback URL.") := by
  refine ⟨?_, ?_, ?_⟩
  · cases ht : truthyOpt (List.lookup "code" params) <;>
      simp [handleAuthCallback, ht]
  · intro c hc hne
    simp [handleAuthCallback, hc, truthyOpt, hne]
  · rintro (h | h) <;> simp [handleAuthCallback, h, truthyOpt]

/-- Witness for the amended C6 theorem at a concrete request. -/
theorem handleAuthCallback_single_request_witness :
    List.lookup "code" [("code", "abc")] = some "abc" ∧
    ("abc" : String) ≠ "" ∧
    ((handleAuthCallback [("code", "abc")]).responseBody =
      "Authentication successful! You can close this window." ∧
     (handleAuthCallback [("code", "abc")]).result = Except.ok "abc") :=
  ⟨rfl, by decide,
    (handleAuthCallback_single_request [("code", "abc")]).2.1 "abc" rfl
      (by decide)⟩

lemma freshAuth_exited_of_thrown_none (b : Bool) (o : Except String Unit)
    (p : List (String × String)) (ex : Except String TokenRecord)
    (sv : Except String Unit)
    (hf : (freshAuth b o p ex sv).thrown = none) :
    (freshAuth b o p ex sv).exited = if b then some 0 else none := by
  rcases o with e | u
  · simp [freshAuth] at hf
  · rcases hr : (handleAuthCallback p).result with e | c
    · simp [freshAuth, hr] at hf
    · rcases ex with e | tokens
      · simp [freshAuth, hr] at hf
      · rcases sv with e | u2
        · simp [freshAuth, hr] at hf
        · simp [freshAuth, hr]

lemma authenticate_exited_of_thrown_none (env : AuthEnv) (b : Bool)
    (h : (authenticate env b).thrown = none) :
    (authenticate env b).exited = if b then some 0 else none := by
  rcases htf : env.tokenFile with _ | raw | tok <;>
    simp only [authenticate, htf] at h ⊢
  · exact freshAuth_exited_of_thrown_none b _ _ _ _ h
  · exact freshAuth_exited_of_thrown_none b _ _ _ _ h

/-- Claim C7: with the auth-only flag set, as soon as `authenticate`
completes (reaches the authenticated state without throwing), the process
exits with code 0 and the upload pipeline never runs. -/
theorem authOnly_skips_upload (env : ProcessEnv)
    (honly : env.onlyAuth = true)
    (hok : (authenticate env.auth true).thrown = none) :
    (runMain env).exitCode = 0 ∧ (runMain env).uploadRan = false := by
  have hex := authenticate_exited_of_thrown_none env.auth true hok
  simp only [if_pos] at hex
  simp [runMain, honly, hex]

/-- Witness for the C7 theorem at a concrete environment. -/
theorem authOnly_skips_upload_witness :
    authOnlyProcessEnv.onlyAuth = true ∧
    (authenticate authOnlyProcessEnv.auth true).thrown = none ∧
    ((runMain authOnlyProcessEnv).exitCode = 0 ∧
      (runMain authOnlyProcessEnv).uploadRan = false) :=
  ⟨rfl, rfl, authOnly_skips_upload authOnlyProcessEnv rfl rfl⟩

/-- Claim C3 counterexample: with an unreadable clipboard (the synchronous
read throws), the exception escapes `uploadFile`, is caught and logged by
the top-level handler, and the process ends with exit code 0 — not the
claimed exit code 1. -/
theorem unreadable_clipboard_exits_zero :
    unreadableClipProcessEnv.upload.clipRead =
      Except.error "clipboard unreadable" ∧
    (runMain unreadableClipProcessEnv).exitCode = 0 ∧
    (runMain unreadableClipProcessEnv).exitCode ≠ 1 :=
  ⟨rfl, rfl, by decide⟩

/-- Claim C3 (amended): when the upload pipeline reads an empty clipboard it
logs the empty-clipboard error and exits with code 1 without issuing any
network or service call; when the clipboard read itself throws (unreadable
clipboard), the exception propagates to the top-level handler, which logs it,
nothing is written to the clipboard, no network or service call is made, and
the process ends with exit code 0. -/
theorem clipboard_failure_no_network :
    (∀ env : ProcessEnv, env.onlyAuth = false →
      (authenticate env.auth false).thrown = none →
      env.upload.clipRead = .ok "" →
      (runMain env).exitCode = 1 ∧
      (uploadFile env.upload).calls = [] ∧
      (uploadFile env.upload).errLogs = [UploadLog.clipboardEmpty]) ∧
    (∀ (env : ProcessEnv) (e : String), env.onlyAuth = false →
      (authenticate env.auth false).thrown = none →
      env.upload.clipRead = .error e →
      (runMain env).exitCode = 0 ∧
      (uploadFile env.upload).calls = [] ∧
      (uploadFile env.upload).thrown = some e ∧
      (uploadFile env.upload).clipWrite = none) := by
  constructor
  · intro env honly hth hclip
    have hex := authenticate_exited_of_thrown_none env.auth false hth
    simp only [Bool.false_eq_true, if_false] at hex
    have hu : uploadFile env.upload =
        { exited := some 1, calls := [], clipWrite := none, thrown := none,
          errLogs := [.clipboardEmpty] } := by
      simp [uploadFile, hclip]
    exact ⟨by simp [runMain, honly, hex, hth, hu], by simp [hu], by simp [hu]⟩
  · intro env e honly hth hclip
    have hex := authenticate_exited_of_thrown_none env.auth false hth
    simp only [Bool.false_eq_true, if_false] at hex
    have hu : uploadFile env.upload =
        { exited := none, calls := [], clipWrite := none, thrown := some e,
          errLogs := [] } := by
      simp [uploadFile, hclip]
    exact ⟨by simp [runMain, honly, hex, hth, hu], by simp [hu], by simp [hu],
      by simp [hu]⟩

/-- Witness for the amended C3 theorem at a concrete environment. -/
theorem clipboard_failure_no_network_witness :
    emptyClipProcessEnv.onlyAuth = false ∧
    (authenticate emptyClipProcessEnv.auth false).thrown = none ∧
    emptyClipProcessEnv.upload.clipRead = .ok "" ∧
    ((runMain emptyClipProcessEnv).exitCode = 1 ∧
      (uploadFile emptyClipProcessEnv.upload).calls = [] ∧
      (uploadFile emptyClipProcessEnv.upload).errLogs =
        [UploadLog.clipboardEmpty]) :=
  ⟨rfl, rfl, rfl,
    clipboard_failure_no_network.1 emptyClipProcessEnv rfl rfl rfl⟩

/-- Claim C4: when the Drive create call succeeds (with a truthy file id)
but the permission-grant call fails, `uploadFile` logs the error, does not
throw or exit, and never writes the clipboard, so its prior content is
retained. -/
theorem perm_failure_keeps_clipboard (env : UploadEnv) (s : String)
    (d : CreateData) (e : String)
    (hclip : env.clipRead = .ok s) (hs : s ≠ "")
    (hc : env.createRes = .ok d) (hid : truthyOpt d.id = true)
    (hp : env.permRes = .error e) :
    (uploadFile env).thrown = none ∧ (uploadFile env).exited = none ∧
    (uploadFile env).clipWrite = none ∧
    (uploadFile env).errLogs = [UploadLog.uploadError e] := by
  have hm := modifyClipboardContent_ne_empty s hs
  simp [uploadFile, hclip, hc, hp, hid, hs, hm]

/-- Witness for the C4 theorem at a concrete environment. -/
theorem perm_failure_keeps_clipboard_witness :
    permFailUploadEnv.clipRead = .ok "hello" ∧ ("hello" : String) ≠ "" ∧
    permFailUploadEnv.createRes =
      .ok { id := some "f1", webViewLink := some "L" } ∧
    truthyOpt (some "f1") = true ∧
    permFailUploadEnv.permRes = .error "perm denied" ∧
    ((uploadFile permFailUploadEnv).thrown = none ∧
      (uploadFile permFailUploadEnv).exited = none ∧
      (uploadFile permFailUploadEnv).clipWrite = none ∧
      (uploadFile permFailUploadEnv).errLogs =
        [UploadLog.uploadError "perm denied"]) :=
  ⟨rfl, by decide, rfl, by decide, rfl,
    perm_failure_keeps_clipboard permFailUploadEnv "hello"
      { id := some "f1", webViewLink := some "L" } "perm denied" rfl
      (by decide) rfl (by decide) rfl⟩

end Clip2Board
